import Mathlib

/-!
Shallow embedding of the dynamic query-condition builder of
`src/server/src/erp/order_module/model/order.rs` (repository `elerp`):
the `GetOrdersQuery` filter/sort request and its two compilers
`get_where_condition` / `get_order_condition`.

Machine integers (`i64`) are modelled as `Int` (no arithmetic is performed
on them, they are only rendered to decimal text, which agrees with Rust's
`Display` for `i64`).  The `ahash::HashSet` fields are modelled as lists:
membership is by equality, and rendering order is the iteration order of
the set, which the source leaves unspecified.

The helper functions `eq_or_not`, `in_or_not`, `like_or_not`,
`set_to_string`, `get_sort_col_str` and `get_sorter_str` come from
`crate::erp::util` / `crate::myhelper`, whose source files are not part of
this snapshot; they are modelled from the specification (§4.2, §4.3, §9 of
the spec), as marked in their doc comments.
-/

namespace Elerp

/-- `OrderType` enum of the source (closed set of order classifications). -/
inductive OrderType where
  | StockIn
  | StockOut
  | Return
  | Exchange
  | Calibration
  | CalibrationStrict
  | Verification
  | VerificationStrict
deriving DecidableEq, Repr

/-- String form of an `OrderType`, as produced by `strum::AsRefStr`
(the variant's name). -/
def OrderType.as_ref : OrderType → String
  | .StockIn => "StockIn"
  | .StockOut => "StockOut"
  | .Return => "Return"
  | .Exchange => "Exchange"
  | .Calibration => "Calibration"
  | .CalibrationStrict => "CalibrationStrict"
  | .Verification => "Verification"
  | .VerificationStrict => "VerificationStrict"

/-- `OrderPaymentStatus` enum of the source. -/
inductive OrderPaymentStatus where
  | Settled
  | Unsettled
  | PartialSettled
  | None
deriving DecidableEq, Repr

/-- String form of an `OrderPaymentStatus`, as produced by
`strum::Display` (the variant's name). -/
def OrderPaymentStatus.display : OrderPaymentStatus → String
  | .Settled => "Settled"
  | .Unsettled => "Unsettled"
  | .PartialSettled => "PartialSettled"
  | .None => "None"

instance : ToString OrderPaymentStatus := ⟨OrderPaymentStatus.display⟩

/-- `OrderCurrency` enum of the source. -/
inductive OrderCurrency where
  | CNY
  | HKD
  | USD
  | GBP
  | MYR
  | IDR
  | INR
  | PHP
  | Unknown
deriving DecidableEq, Repr

/-- String form of an `OrderCurrency`, as produced by `strum::AsRefStr`
(the variant's name). -/
def OrderCurrency.as_ref : OrderCurrency → String
  | .CNY => "CNY"
  | .HKD => "HKD"
  | .USD => "USD"
  | .GBP => "GBP"
  | .MYR => "MYR"
  | .IDR => "IDR"
  | .INR => "INR"
  | .PHP => "PHP"
  | .Unknown => "Unknown"

/-- The `GetOrdersQuery` filter/sort request.  `HashSet` fields are
modelled as lists (membership by equality, rendering in list order). -/
structure GetOrdersQuery where
  id : Option Int
  created_by_user_id : Option Int
  updated_by_user_id : Option Int
  fuzzy : Option String
  warehouse_ids : Option (List Int)
  person_related_id : Option Int
  person_in_charge_id : Option Int
  order_payment_status : Option (List OrderPaymentStatus)
  order_type : Option OrderType
  order_category_id : Option Int
  currency : Option OrderCurrency
  date_start : Option Int
  date_end : Option Int
  last_updated_date_start : Option Int
  last_updated_date_end : Option Int
  sorters : Option (List String)
  reverse : Option (List String)
deriving DecidableEq, Repr

/-- `GetOrdersQuery::empty()` of the source: every optional field absent. -/
def GetOrdersQuery.empty : GetOrdersQuery where
  id := none
  created_by_user_id := none
  updated_by_user_id := none
  fuzzy := none
  warehouse_ids := none
  person_in_charge_id := none
  person_related_id := none
  order_payment_status := none
  order_category_id := none
  order_type := none
  currency := none
  date_start := none
  date_end := none
  sorters := none
  reverse := none
  last_updated_date_start := none
  last_updated_date_end := none

/-- Modelled from the spec: `crate::erp::util::eq_or_not` is not under
`src/`.  Spec §4.2: if the field identifier is present in the reverse set
return the negated equality operator `!=`, otherwise `=`; absence of the
whole reverse set is the default (non-negated) path. -/
def eq_or_not (reverse : Option (List String)) (field : String) : String :=
  match reverse with
  | some r => if r.contains field then "!=" else "="
  | none => "="

/-- Modelled from the spec: `crate::erp::util::in_or_not` is not under
`src/`.  Spec §4.2 gives the operator pair `IN` / `NOT IN`; the spacing
(one blank on each side) is taken from the §8 example
`orders.warehouse_id IN (1,2,3)`. -/
def in_or_not (reverse : Option (List String)) (field : String) : String :=
  match reverse with
  | some r => if r.contains field then " NOT IN " else " IN "
  | none => " IN "

/-- Modelled from the spec: `crate::erp::util::like_or_not` is not under
`src/`.  Spec §4.2: the pattern-match operator pair `LIKE` / `NOT LIKE`
(the caller's format string supplies the surrounding blanks). -/
def like_or_not (reverse : Option (List String)) (field : String) : String :=
  match reverse with
  | some r => if r.contains field then "NOT LIKE" else "LIKE"
  | none => "LIKE"

/-- Modelled from the spec: `crate::myhelper::set_to_string` is not under
`src/`.  Spec §4.1: the set's values rendered as a literal list joined by
the given separator, in the set's iteration order (here: list order). -/
def set_to_string [ToString α] (s : List α) (sep : String) : String :=
  String.intercalate sep (s.map toString)

/-- Modelled from the spec: `crate::erp::util::get_sort_col_str` is not
under `src/`.  Spec §4.3: a sort token is `field[:direction]`; this
returns the base column identifier (the characters before the first
`:`, or the whole token when there is none). -/
def get_sort_col_str (sorter : String) : String :=
  String.mk (sorter.data.takeWhile fun c => c ≠ ':')

/-- Modelled from the spec: `crate::erp::util::get_sorter_str` is not
under `src/`.  Spec §4.3: the direction suffix of a sort token (the
characters after the first `:`), the unspecified direction defaulting to
ascending (`ASC`). -/
def get_sorter_str (sorter : String) : String :=
  match sorter.data.dropWhile fun c => c ≠ ':' with
  | [] => "ASC"
  | _ :: rest => String.mk rest

/-- Clause pushed by the `if let Some(v) = &self.id` block of
`get_where_condition`. -/
def idClause (q : GetOrdersQuery) : Option String :=
  q.id.map fun v =>
    let eq := eq_or_not q.reverse "id"
    s!"orders.id{eq}{v}"

/-- Clause pushed by the `if let Some(v) = &self.created_by_user_id`
block of `get_where_condition`. -/
def createdByUserIdClause (q : GetOrdersQuery) : Option String :=
  q.created_by_user_id.map fun v =>
    let eq := eq_or_not q.reverse "created_by_user_id"
    s!"orders.created_by_user_id{eq}{v}"

/-- Clause pushed by the `if let Some(v) = &self.updated_by_user_id`
block of `get_where_condition`. -/
def updatedByUserIdClause (q : GetOrdersQuery) : Option String :=
  q.updated_by_user_id.map fun v =>
    let eq := eq_or_not q.reverse "updated_by_user_id"
    s!"orders.updated_by_user_id{eq}{v}"

/-- The format string of the fuzzy block of `get_where_condition`: a
five-way `OR` of pattern comparisons over, in order, the text-cast order
id, the related person's name, the person in charge's name, the order
status name and the warehouse name, `eq` being the pattern operator and
`v` the fuzzy value. -/
def fuzzyText (eq v : String) : String :=
  s!"CAST(orders.id AS TEXT) {eq} '%{v}%' OR persons_related.name {eq} '%{v}%' OR persons_in_charge.name {eq} '%{v}%' OR order_status_list.name {eq} '%{v}%' OR warehouses.name {eq} '%{v}%'"

/-- Clause pushed by the `if let Some(v) = &self.fuzzy` block of
`get_where_condition`: the `fuzzyText` format string applied to the
resolved pattern operator and the fuzzy value. -/
def fuzzyClause (q : GetOrdersQuery) : Option String :=
  q.fuzzy.map fun v =>
    let eq := like_or_not q.reverse "fuzzy"
    fuzzyText eq v

/-- Clause pushed by the `if let Some(v) = &self.warehouse_ids` block of
`get_where_condition`. -/
def warehouseIdsClause (q : GetOrdersQuery) : Option String :=
  q.warehouse_ids.map fun v =>
    let eq := in_or_not q.reverse "warehouse_ids"
    let v := set_to_string v ","
    s!"orders.warehouse_id{eq}({v})"

/-- Clause pushed by the `if let Some(v) = &self.person_related_id`
block of `get_where_condition`. -/
def personRelatedIdClause (q : GetOrdersQuery) : Option String :=
  q.person_related_id.map fun v =>
    let eq := eq_or_not q.reverse "person_related_id"
    s!"orders.person_related_id{eq}{v}"

/-- Clause pushed by the `if let Some(v) = &self.person_in_charge_id`
block of `get_where_condition`. -/
def personInChargeIdClause (q : GetOrdersQuery) : Option String :=
  q.person_in_charge_id.map fun v =>
    let eq := eq_or_not q.reverse "person_in_charge_id"
    s!"orders.person_in_charge_id{eq}{v}"

/-- Clause pushed by the `if let Some(v) = &self.order_type` block of
`get_where_condition` (value quoted via `as_ref`). -/
def orderTypeClause (q : GetOrdersQuery) : Option String :=
  q.order_type.map fun v =>
    let eq := eq_or_not q.reverse "order_type"
    let s := v.as_ref
    s!"orders.order_type{eq}'{s}'"

/-- Clause pushed by the `if let Some(v) = &self.order_payment_status`
block of `get_where_condition` (quote-joined membership list). -/
def orderPaymentStatusClause (q : GetOrdersQuery) : Option String :=
  q.order_payment_status.map fun v =>
    let eq := in_or_not q.reverse "order_payment_status"
    let v := set_to_string v "','"
    s!"orders.order_payment_status{eq}('{v}')"

/-- Clause pushed by the `if let Some(v) = &self.order_category_id`
block of `get_where_condition`. -/
def orderCategoryIdClause (q : GetOrdersQuery) : Option String :=
  q.order_category_id.map fun v =>
    let eq := eq_or_not q.reverse "order_category_id"
    s!"orders.order_category_id{eq}{v}"

/-- Clause pushed by the `if let Some(v) = &self.currency` block of
`get_where_condition` (value quoted via `as_ref`). -/
def currencyClause (q : GetOrdersQuery) : Option String :=
  q.currency.map fun v =>
    let eq := eq_or_not q.reverse "currency"
    let s := v.as_ref
    s!"orders.currency{eq}'{s}'"

/-- Clause pushed by the `if let Some(v) = &self.date_start` block of
`get_where_condition` (no polarity resolver involved). -/
def dateStartClause (q : GetOrdersQuery) : Option String :=
  q.date_start.map fun v => s!"orders.date>={v}"

/-- Clause pushed by the `if let Some(v) = &self.date_end` block of
`get_where_condition` (no polarity resolver involved). -/
def dateEndClause (q : GetOrdersQuery) : Option String :=
  q.date_end.map fun v => s!"orders.date<={v}"

/-- Clause pushed by the `if let Some(v) = &self.last_updated_date_start`
block of `get_where_condition`: note the literal compound column name. -/
def lastUpdatedDateStartClause (q : GetOrdersQuery) : Option String :=
  q.last_updated_date_start.map fun v => s!"orders.last_updated_date_start>={v}"

/-- Clause pushed by the `if let Some(v) = &self.last_updated_date_end`
block of `get_where_condition`: note the literal compound column name. -/
def lastUpdatedDateEndClause (q : GetOrdersQuery) : Option String :=
  q.last_updated_date_end.map fun v => s!"orders.last_updated_date_end<={v}"

/-- The `conditions` vector built by `get_where_condition`: one optional
clause per filter field, in the source's evaluation order. -/
def whereClauseList (q : GetOrdersQuery) : List String :=
  (idClause q).toList ++
  (createdByUserIdClause q).toList ++
  (updatedByUserIdClause q).toList ++
  (fuzzyClause q).toList ++
  (warehouseIdsClause q).toList ++
  (personRelatedIdClause q).toList ++
  (personInChargeIdClause q).toList ++
  (orderTypeClause q).toList ++
  (orderPaymentStatusClause q).toList ++
  (orderCategoryIdClause q).toList ++
  (currencyClause q).toList ++
  (dateStartClause q).toList ++
  (dateEndClause q).toList ++
  (lastUpdatedDateStartClause q).toList ++
  (lastUpdatedDateEndClause q).toList

/-- `GetOrdersQuery::get_where_condition` of the source: each present
filter field pushes one clause, in source order (`whereClauseList`); the
clauses are joined with `" AND "` and prefixed by `WHERE `, an empty
clause list giving `""`. -/
def GetOrdersQuery.get_where_condition (self : GetOrdersQuery) : String :=
  let conditions : List String := whereClauseList self
  if !conditions.isEmpty then
    let c := String.intercalate " AND " conditions
    s!"WHERE {c}"
  else
    ""

/-- One ORDER BY term of `GetOrdersQuery::get_order_condition`: the body
of the source's per-sorter loop. -/
def sortTerm (sorter : String) : String :=
  let col := get_sort_col_str sorter
  let sort := get_sorter_str sorter
  if col == "warehouse_id" then
    s!"warehouse_name {sort}"
  else if col == "person_related_id" then
    s!"person_related_name {sort}"
  else if col == "person_in_charge_id" then
    s!"person_in_charge_name {sort}"
  else if col == "order_category_id" then
    s!"order_status_name {sort}"
  else
    s!"orders.{col} {sort}"

/-- `GetOrdersQuery::get_order_condition` of the source: absent sorter
list gives `""`; otherwise one term per token in caller order, joined with
`", "` and prefixed by `ORDER BY `, an empty token list giving `""`. -/
def GetOrdersQuery.get_order_condition (self : GetOrdersQuery) : String :=
  match self.sorters with
  | none => ""
  | some sorters =>
    let conditions : List String := sorters.map sortTerm
    if !conditions.isEmpty then
      let c := String.intercalate ", " conditions
      s!"ORDER BY {c}"
    else
      ""

/-! ## General helper lemmas -/

/-- `toString` on a `String` is the identity. -/
theorem toString_string (s : String) : toString s = s := rfl

/-- Decomposition of `get_where_condition`: the fragment is empty when no
clause is present, and otherwise `WHERE ` followed by the `" AND "`-join
of the clause list. -/
theorem get_where_condition_decomp (q : GetOrdersQuery) :
    q.get_where_condition =
      if (whereClauseList q).isEmpty then ""
      else "WHERE " ++ String.intercalate " AND " (whereClauseList q) := by
  cases h : (whereClauseList q).isEmpty <;>
    simp [GetOrdersQuery.get_where_condition, h, toString_string, String.append_empty]

/-- When at least one clause is present the WHERE fragment is `WHERE `
followed by the `" AND "`-join of the clause list. -/
theorem get_where_condition_of_ne_nil (q : GetOrdersQuery)
    (h : whereClauseList q ≠ []) :
    q.get_where_condition = "WHERE " ++ String.intercalate " AND " (whereClauseList q) := by
  rw [get_where_condition_decomp]
  simp [h]

/-- `getLast?` skips the head of a cons cell with a nonempty tail. -/
theorem getLast?_cons_ne_nil {α : Type} (a : α) (l : List α) (h : l ≠ []) :
    (a :: l).getLast? = l.getLast? := by
  cases l with
  | nil => exact absurd rfl h
  | cons b m => exact List.getLast?_cons_cons

/-- `getLast?` skips the head of a cons cell whose tail is an append
ending in a cons cell. -/
theorem getLast?_cons_append_cons {α : Type} (a b : α) (l₁ l₂ : List α) :
    (a :: (l₁ ++ b :: l₂)).getLast? = (l₁ ++ b :: l₂).getLast? :=
  getLast?_cons_ne_nil _ _ (by simp)

/-! ## Claim theorems -/

/-- Claim C1: for every request in which two or more filter fields are
present (the clause list has length at least 2), `get_where_condition`
joins the per-field clauses with `" AND "` in the fixed declaration order
id, created_by_user_id, updated_by_user_id, fuzzy, warehouse_ids,
person_related_id, person_in_charge_id, order_type, order_payment_status,
order_category_id, currency, date_start, date_end,
last_updated_date_start, last_updated_date_end, regardless of which
subset is present. -/
theorem C1_where_and_joined_in_declaration_order (q : GetOrdersQuery)
    (h : 2 ≤ (whereClauseList q).length) :
    q.get_where_condition =
      "WHERE " ++ String.intercalate " AND "
        ((idClause q).toList ++
         (createdByUserIdClause q).toList ++
         (updatedByUserIdClause q).toList ++
         (fuzzyClause q).toList ++
         (warehouseIdsClause q).toList ++
         (personRelatedIdClause q).toList ++
         (personInChargeIdClause q).toList ++
         (orderTypeClause q).toList ++
         (orderPaymentStatusClause q).toList ++
         (orderCategoryIdClause q).toList ++
         (currencyClause q).toList ++
         (dateStartClause q).toList ++
         (dateEndClause q).toList ++
         (lastUpdatedDateStartClause q).toList ++
         (lastUpdatedDateEndClause q).toList) := by
  have hne : (whereClauseList q).isEmpty = false := by
    cases hl : whereClauseList q with
    | nil => rw [hl] at h; simp at h
    | cons a l => simp
  rw [get_where_condition_decomp, hne]
  simp only [Bool.false_eq_true, if_false]
  rfl

/-- Witness for C1: a request with `id` and `currency` present has two
clauses, and the theorem instantiates to the expected text. -/
theorem C1_witness :
    2 ≤ (whereClauseList {GetOrdersQuery.empty with
          id := some 3, currency := some .USD}).length ∧
    ({GetOrdersQuery.empty with
          id := some 3, currency := some .USD} : GetOrdersQuery).get_where_condition
      = "WHERE orders.id=3 AND orders.currency='USD'" :=
  ⟨by decide,
   (C1_where_and_joined_in_declaration_order _ (by decide)).trans (by decide)⟩

/-- Claim C8: the all-absent request built by `GetOrdersQuery.empty` gets
an empty WHERE fragment and an empty ORDER BY fragment — neither keyword
is emitted. -/
theorem C8_empty_request_empty_fragments :
    GetOrdersQuery.empty.get_where_condition = "" ∧
    GetOrdersQuery.empty.get_order_condition = "" :=
  ⟨rfl, rfl⟩

/-- Claim C9: `get_where_condition` and `get_order_condition` are
deterministic pure functions of the request value: equal requests give
identical WHERE text and identical ORDER BY text (in this embedding both
compilers are total functions, so the request value is never modified). -/
theorem C9_deterministic (q₁ q₂ : GetOrdersQuery) (h : q₁ = q₂) :
    q₁.get_where_condition = q₂.get_where_condition ∧
    q₁.get_order_condition = q₂.get_order_condition := by
  subst h
  exact ⟨rfl, rfl⟩

/-- Witness for C9 at a concrete request. -/
theorem C9_witness :
    ({GetOrdersQuery.empty with id := some 1} : GetOrdersQuery).get_where_condition
        = ({GetOrdersQuery.empty with id := some 1} : GetOrdersQuery).get_where_condition ∧
    ({GetOrdersQuery.empty with id := some 1} : GetOrdersQuery).get_order_condition
        = ({GetOrdersQuery.empty with id := some 1} : GetOrdersQuery).get_order_condition :=
  C9_deterministic _ _ rfl

/-- Claim C2: for every request with exactly one scalar equality field
`F` present (one of id, created_by_user_id, updated_by_user_id,
person_related_id, person_in_charge_id, order_category_id — the other
five absent, all non-equality filter fields arbitrary) and `F` not in the
reverse set, the clause list contains the clause `orders.F=value`; adding
`F`'s identifier to the reverse set turns exactly that clause into
`orders.F!=value` while every clause before and after it (the lists `A`
and `B`) is unchanged, and in both cases the WHERE fragment is the
`" AND "`-join of the clause list. -/
theorem C2_single_equality_field_polarity (q : GetOrdersQuery) (v : Int) (rev : List String) :
    (q.id = some v →
     q.created_by_user_id = none →
     q.updated_by_user_id = none →
     q.person_related_id = none →
     q.person_in_charge_id = none →
     q.order_category_id = none →
     "id" ∉ rev →
      idClause {q with reverse := some rev} = some ("orders.id=" ++ toString v) ∧
      idClause {q with reverse := some ("id" :: rev)} = some ("orders.id!=" ++ toString v) ∧
      (∃ A B, whereClauseList {q with reverse := some rev} = A ++ ("orders.id=" ++ toString v) :: B ∧
        whereClauseList {q with reverse := some ("id" :: rev)} = A ++ ("orders.id!=" ++ toString v) :: B) ∧
      ({q with reverse := some rev} : GetOrdersQuery).get_where_condition
        = "WHERE " ++ String.intercalate " AND " (whereClauseList {q with reverse := some rev}) ∧
      ({q with reverse := some ("id" :: rev)} : GetOrdersQuery).get_where_condition
        = "WHERE " ++ String.intercalate " AND " (whereClauseList {q with reverse := some ("id" :: rev)})) ∧
    (q.created_by_user_id = some v →
     q.id = none →
     q.updated_by_user_id = none →
     q.person_related_id = none →
     q.person_in_charge_id = none →
     q.order_category_id = none →
     "created_by_user_id" ∉ rev →
      createdByUserIdClause {q with reverse := some rev} = some ("orders.created_by_user_id=" ++ toString v) ∧
      createdByUserIdClause {q with reverse := some ("created_by_user_id" :: rev)} = some ("orders.created_by_user_id!=" ++ toString v) ∧
      (∃ A B, whereClauseList {q with reverse := some rev} = A ++ ("orders.created_by_user_id=" ++ toString v) :: B ∧
        whereClauseList {q with reverse := some ("created_by_user_id" :: rev)} = A ++ ("orders.created_by_user_id!=" ++ toString v) :: B) ∧
      ({q with reverse := some rev} : GetOrdersQuery).get_where_condition
        = "WHERE " ++ String.intercalate " AND " (whereClauseList {q with reverse := some rev}) ∧
      ({q with reverse := some ("created_by_user_id" :: rev)} : GetOrdersQuery).get_where_condition
        = "WHERE " ++ String.intercalate " AND " (whereClauseList {q with reverse := some ("created_by_user_id" :: rev)})) ∧
    (q.updated_by_user_id = some v →
     q.id = none →
     q.created_by_user_id = none →
     q.person_related_id = none →
     q.person_in_charge_id = none →
     q.order_category_id = none →
     "updated_by_user_id" ∉ rev →
      updatedByUserIdClause {q with reverse := some rev} = some ("orders.updated_by_user_id=" ++ toString v) ∧
      updatedByUserIdClause {q with reverse := some ("updated_by_user_id" :: rev)} = some ("orders.updated_by_user_id!=" ++ toString v) ∧
      (∃ A B, whereClauseList {q with reverse := some rev} = A ++ ("orders.updated_by_user_id=" ++ toString v) :: B ∧
        whereClauseList {q with reverse := some ("updated_by_user_id" :: rev)} = A ++ ("orders.updated_by_user_id!=" ++ toString v) :: B) ∧
      ({q with reverse := some rev} : GetOrdersQuery).get_where_condition
        = "WHERE " ++ String.intercalate " AND " (whereClauseList {q with reverse := some rev}) ∧
      ({q with reverse := some ("updated_by_user_id" :: rev)} : GetOrdersQuery).get_where_condition
        = "WHERE " ++ String.intercalate " AND " (whereClauseList {q with reverse := some ("updated_by_user_id" :: rev)})) ∧
    (q.person_related_id = some v →
     q.id = none →
     q.created_by_user_id = none →
     q.updated_by_user_id = none →
     q.person_in_charge_id = none →
     q.order_category_id = none →
     "person_related_id" ∉ rev →
      personRelatedIdClause {q with reverse := some rev} = some ("orders.person_related_id=" ++ toString v) ∧
      personRelatedIdClause {q with reverse := some ("person_related_id" :: rev)} = some ("orders.person_related_id!=" ++ toString v) ∧
      (∃ A B, whereClauseList {q with reverse := some rev} = A ++ ("orders.person_related_id=" ++ toString v) :: B ∧
        whereClauseList {q with reverse := some ("person_related_id" :: rev)} = A ++ ("orders.person_related_id!=" ++ toString v) :: B) ∧
      ({q with reverse := some rev} : GetOrdersQuery).get_where_condition
        = "WHERE " ++ String.intercalate " AND " (whereClauseList {q with reverse := some rev}) ∧
      ({q with reverse := some ("person_related_id" :: rev)} : GetOrdersQuery).get_where_condition
        = "WHERE " ++ String.intercalate " AND " (whereClauseList {q with reverse := some ("person_related_id" :: rev)})) ∧
    (q.person_in_charge_id = some v →
     q.id = none →
     q.created_by_user_id = none →
     q.updated_by_user_id = none →
     q.person_related_id = none →
     q.order_category_id = none →
     "person_in_charge_id" ∉ rev →
      personInChargeIdClause {q with reverse := some rev} = some ("orders.person_in_charge_id=" ++ toString v) ∧
      personInChargeIdClause {q with reverse := some ("person_in_charge_id" :: rev)} = some ("orders.person_in_charge_id!=" ++ toString v) ∧
      (∃ A B, whereClauseList {q with reverse := some rev} = A ++ ("orders.person_in_charge_id=" ++ toString v) :: B ∧
        whereClauseList {q with reverse := some ("person_in_charge_id" :: rev)} = A ++ ("orders.person_in_charge_id!=" ++ toString v) :: B) ∧
      ({q with reverse := some rev} : GetOrdersQuery).get_where_condition
        = "WHERE " ++ String.intercalate " AND " (whereClauseList {q with reverse := some rev}) ∧
      ({q with reverse := some ("person_in_charge_id" :: rev)} : GetOrdersQuery).get_where_condition
        = "WHERE " ++ String.intercalate " AND " (whereClauseList {q with reverse := some ("person_in_charge_id" :: rev)})) ∧
    (q.order_category_id = some v →
     q.id = none →
     q.created_by_user_id = none →
     q.updated_by_user_id = none →
     q.person_related_id = none →
     q.person_in_charge_id = none →
     "order_category_id" ∉ rev →
      orderCategoryIdClause {q with reverse := some rev} = some ("orders.order_category_id=" ++ toString v) ∧
      orderCategoryIdClause {q with reverse := some ("order_category_id" :: rev)} = some ("orders.order_category_id!=" ++ toString v) ∧
      (∃ A B, whereClauseList {q with reverse := some rev} = A ++ ("orders.order_category_id=" ++ toString v) :: B ∧
        whereClauseList {q with reverse := some ("order_category_id" :: rev)} = A ++ ("orders.order_category_id!=" ++ toString v) :: B) ∧
      ({q with reverse := some rev} : GetOrdersQuery).get_where_condition
        = "WHERE " ++ String.intercalate " AND " (whereClauseList {q with reverse := some rev}) ∧
      ({q with reverse := some ("order_category_id" :: rev)} : GetOrdersQuery).get_where_condition
        = "WHERE " ++ String.intercalate " AND " (whereClauseList {q with reverse := some ("order_category_id" :: rev)})) := by
  refine ⟨?_, ?_, ?_, ?_, ?_, ?_⟩
  · intro h1 h2 h3 h4 h5 h6 h7
    have hcl0 : idClause {q with reverse := some rev} = some ("orders.id=" ++ toString v) := by
      simp [idClause, h1, eq_or_not, h7, toString_string, String.append_empty]
    have hcl1 : idClause {q with reverse := some ("id" :: rev)} = some ("orders.id!=" ++ toString v) := by
      simp [idClause, h1, eq_or_not, toString_string, String.append_empty]
    have hj0 : ({q with reverse := some rev} : GetOrdersQuery).get_where_condition
        = "WHERE " ++ String.intercalate " AND " (whereClauseList {q with reverse := some rev}) := by
      apply get_where_condition_of_ne_nil
      intro hnil
      have hm : ("orders.id=" ++ toString v) ∈ whereClauseList {q with reverse := some rev} := by
        simp [whereClauseList, hcl0]
      rw [hnil] at hm
      simp at hm
    have hj1 : ({q with reverse := some ("id" :: rev)} : GetOrdersQuery).get_where_condition
        = "WHERE " ++ String.intercalate " AND " (whereClauseList {q with reverse := some ("id" :: rev)}) := by
      apply get_where_condition_of_ne_nil
      intro hnil
      have hm : ("orders.id!=" ++ toString v) ∈ whereClauseList {q with reverse := some ("id" :: rev)} := by
        simp [whereClauseList, hcl1]
      rw [hnil] at hm
      simp at hm
    refine ⟨hcl0, hcl1, ⟨([] : List String),
      (createdByUserIdClause {q with reverse := some rev}).toList ++
      (updatedByUserIdClause {q with reverse := some rev}).toList ++
      (fuzzyClause {q with reverse := some rev}).toList ++
      (warehouseIdsClause {q with reverse := some rev}).toList ++
      (personRelatedIdClause {q with reverse := some rev}).toList ++
      (personInChargeIdClause {q with reverse := some rev}).toList ++
      (orderTypeClause {q with reverse := some rev}).toList ++
      (orderPaymentStatusClause {q with reverse := some rev}).toList ++
      (orderCategoryIdClause {q with reverse := some rev}).toList ++
      (currencyClause {q with reverse := some rev}).toList ++
      (dateStartClause {q with reverse := some rev}).toList ++
      (dateEndClause {q with reverse := some rev}).toList ++
      (lastUpdatedDateStartClause {q with reverse := some rev}).toList ++
      (lastUpdatedDateEndClause {q with reverse := some rev}).toList, ?_, ?_⟩, hj0, hj1⟩
    · simp only [whereClauseList]
      rw [hcl0]
      simp
    · simp only [whereClauseList]
      rw [hcl1]
      simp [createdByUserIdClause, updatedByUserIdClause, fuzzyClause, warehouseIdsClause, personRelatedIdClause, personInChargeIdClause, orderTypeClause, orderPaymentStatusClause, orderCategoryIdClause, currencyClause, dateStartClause, dateEndClause, lastUpdatedDateStartClause, lastUpdatedDateEndClause,
        eq_or_not, in_or_not, like_or_not]
  · intro h1 h2 h3 h4 h5 h6 h7
    have hcl0 : createdByUserIdClause {q with reverse := some rev} = some ("orders.created_by_user_id=" ++ toString v) := by
      simp [createdByUserIdClause, h1, eq_or_not, h7, toString_string, String.append_empty]
    have hcl1 : createdByUserIdClause {q with reverse := some ("created_by_user_id" :: rev)} = some ("orders.created_by_user_id!=" ++ toString v) := by
      simp [createdByUserIdClause, h1, eq_or_not, toString_string, String.append_empty]
    have hj0 : ({q with reverse := some rev} : GetOrdersQuery).get_where_condition
        = "WHERE " ++ String.intercalate " AND " (whereClauseList {q with reverse := some rev}) := by
      apply get_where_condition_of_ne_nil
      intro hnil
      have hm : ("orders.created_by_user_id=" ++ toString v) ∈ whereClauseList {q with reverse := some rev} := by
        simp [whereClauseList, hcl0]
      rw [hnil] at hm
      simp at hm
    have hj1 : ({q with reverse := some ("created_by_user_id" :: rev)} : GetOrdersQuery).get_where_condition
        = "WHERE " ++ String.intercalate " AND " (whereClauseList {q with reverse := some ("created_by_user_id" :: rev)}) := by
      apply get_where_condition_of_ne_nil
      intro hnil
      have hm : ("orders.created_by_user_id!=" ++ toString v) ∈ whereClauseList {q with reverse := some ("created_by_user_id" :: rev)} := by
        simp [whereClauseList, hcl1]
      rw [hnil] at hm
      simp at hm
    refine ⟨hcl0, hcl1, ⟨(idClause {q with reverse := some rev}).toList,
      (updatedByUserIdClause {q with reverse := some rev}).toList ++
      (fuzzyClause {q with reverse := some rev}).toList ++
      (warehouseIdsClause {q with reverse := some rev}).toList ++
      (personRelatedIdClause {q with reverse := some rev}).toList ++
      (personInChargeIdClause {q with reverse := some rev}).toList ++
      (orderTypeClause {q with reverse := some rev}).toList ++
      (orderPaymentStatusClause {q with reverse := some rev}).toList ++
      (orderCategoryIdClause {q with reverse := some rev}).toList ++
      (currencyClause {q with reverse := some rev}).toList ++
      (dateStartClause {q with reverse := some rev}).toList ++
      (dateEndClause {q with reverse := some rev}).toList ++
      (lastUpdatedDateStartClause {q with reverse := some rev}).toList ++
      (lastUpdatedDateEndClause {q with reverse := some rev}).toList, ?_, ?_⟩, hj0, hj1⟩
    · simp only [whereClauseList]
      rw [hcl0]
      simp
    · simp only [whereClauseList]
      rw [hcl1]
      simp [idClause, updatedByUserIdClause, fuzzyClause, warehouseIdsClause, personRelatedIdClause, personInChargeIdClause, orderTypeClause, orderPaymentStatusClause, orderCategoryIdClause, currencyClause, dateStartClause, dateEndClause, lastUpdatedDateStartClause, lastUpdatedDateEndClause,
        eq_or_not, in_or_not, like_or_not]
  · intro h1 h2 h3 h4 h5 h6 h7
    have hcl0 : updatedByUserIdClause {q with reverse := some rev} = some ("orders.updated_by_user_id=" ++ toString v) := by
      simp [updatedByUserIdClause, h1, eq_or_not, h7, toString_string, String.append_empty]
    have hcl1 : updatedByUserIdClause {q with reverse := some ("updated_by_user_id" :: rev)} = some ("orders.updated_by_user_id!=" ++ toString v) := by
      simp [updatedByUserIdClause, h1, eq_or_not, toString_string, String.append_empty]
    have hj0 : ({q with reverse := some rev} : GetOrdersQuery).get_where_condition
        = "WHERE " ++ String.intercalate " AND " (whereClauseList {q with reverse := some rev}) := by
      apply get_where_condition_of_ne_nil
      intro hnil
      have hm : ("orders.updated_by_user_id=" ++ toString v) ∈ whereClauseList {q with reverse := some rev} := by
        simp [whereClauseList, hcl0]
      rw [hnil] at hm
      simp at hm
    have hj1 : ({q with reverse := some ("updated_by_user_id" :: rev)} : GetOrdersQuery).get_where_condition
        = "WHERE " ++ String.intercalate " AND " (whereClauseList {q with reverse := some ("updated_by_user_id" :: rev)}) := by
      apply get_where_condition_of_ne_nil
      intro hnil
      have hm : ("orders.updated_by_user_id!=" ++ toString v) ∈ whereClauseList {q with reverse := some ("updated_by_user_id" :: rev)} := by
        simp [whereClauseList, hcl1]
      rw [hnil] at hm
      simp at hm
    refine ⟨hcl0, hcl1, ⟨(idClause {q with reverse := some rev}).toList ++
      (createdByUserIdClause {q with reverse := some rev}).toList,
      (fuzzyClause {q with reverse := some rev}).toList ++
      (warehouseIdsClause {q with reverse := some rev}).toList ++
      (personRelatedIdClause {q with reverse := some rev}).toList ++
      (personInChargeIdClause {q with reverse := some rev}).toList ++
      (orderTypeClause {q with reverse := some rev}).toList ++
      (orderPaymentStatusClause {q with reverse := some rev}).toList ++
      (orderCategoryIdClause {q with reverse := some rev}).toList ++
      (currencyClause {q with reverse := some rev}).toList ++
      (dateStartClause {q with reverse := some rev}).toList ++
      (dateEndClause {q with reverse := some rev}).toList ++
      (lastUpdatedDateStartClause {q with reverse := some rev}).toList ++
      (lastUpdatedDateEndClause {q with reverse := some rev}).toList, ?_, ?_⟩, hj0, hj1⟩
    · simp only [whereClauseList]
      rw [hcl0]
      simp
    · simp only [whereClauseList]
      rw [hcl1]
      simp [idClause, createdByUserIdClause, fuzzyClause, warehouseIdsClause, personRelatedIdClause, personInChargeIdClause, orderTypeClause, orderPaymentStatusClause, orderCategoryIdClause, currencyClause, dateStartClause, dateEndClause, lastUpdatedDateStartClause, lastUpdatedDateEndClause,
        eq_or_not, in_or_not, like_or_not]
  · intro h1 h2 h3 h4 h5 h6 h7
    have hcl0 : personRelatedIdClause {q with reverse := some rev} = some ("orders.person_related_id=" ++ toString v) := by
      simp [personRelatedIdClause, h1, eq_or_not, h7, toString_string, String.append_empty]
    have hcl1 : personRelatedIdClause {q with reverse := some ("person_related_id" :: rev)} = some ("orders.person_related_id!=" ++ toString v) := by
      simp [personRelatedIdClause, h1, eq_or_not, toString_string, String.append_empty]
    have hj0 : ({q with reverse := some rev} : GetOrdersQuery).get_where_condition
        = "WHERE " ++ String.intercalate " AND " (whereClauseList {q with reverse := some rev}) := by
      apply get_where_condition_of_ne_nil
      intro hnil
      have hm : ("orders.person_related_id=" ++ toString v) ∈ whereClauseList {q with reverse := some rev} := by
        simp [whereClauseList, hcl0]
      rw [hnil] at hm
      simp at hm
    have hj1 : ({q with reverse := some ("person_related_id" :: rev)} : GetOrdersQuery).get_where_condition
        = "WHERE " ++ String.intercalate " AND " (whereClauseList {q with reverse := some ("person_related_id" :: rev)}) := by
      apply get_where_condition_of_ne_nil
      intro hnil
      have hm : ("orders.person_related_id!=" ++ toString v) ∈ whereClauseList {q with reverse := some ("person_related_id" :: rev)} := by
        simp [whereClauseList, hcl1]
      rw [hnil] at hm
      simp at hm
    refine ⟨hcl0, hcl1, ⟨(idClause {q with reverse := some rev}).toList ++
      (createdByUserIdClause {q with reverse := some rev}).toList ++
      (updatedByUserIdClause {q with reverse := some rev}).toList ++
      (fuzzyClause {q with reverse := some rev}).toList ++
      (warehouseIdsClause {q with reverse := some rev}).toList,
      (personInChargeIdClause {q with reverse := some rev}).toList ++
      (orderTypeClause {q with reverse := some rev}).toList ++
      (orderPaymentStatusClause {q with reverse := some rev}).toList ++
      (orderCategoryIdClause {q with reverse := some rev}).toList ++
      (currencyClause {q with reverse := some rev}).toList ++
      (dateStartClause {q with reverse := some rev}).toList ++
      (dateEndClause {q with reverse := some rev}).toList ++
      (lastUpdatedDateStartClause {q with reverse := some rev}).toList ++
      (lastUpdatedDateEndClause {q with reverse := some rev}).toList, ?_, ?_⟩, hj0, hj1⟩
    · simp only [whereClauseList]
      rw [hcl0]
      simp
    · simp only [whereClauseList]
      rw [hcl1]
      simp [idClause, createdByUserIdClause, updatedByUserIdClause, fuzzyClause, warehouseIdsClause, personInChargeIdClause, orderTypeClause, orderPaymentStatusClause, orderCategoryIdClause, currencyClause, dateStartClause, dateEndClause, lastUpdatedDateStartClause, lastUpdatedDateEndClause,
        eq_or_not, in_or_not, like_or_not]
  · intro h1 h2 h3 h4 h5 h6 h7
    have hcl0 : personInChargeIdClause {q with reverse := some rev} = some ("orders.person_in_charge_id=" ++ toString v) := by
      simp [personInChargeIdClause, h1, eq_or_not, h7, toString_string, String.append_empty]
    have hcl1 : personInChargeIdClause {q with reverse := some ("person_in_charge_id" :: rev)} = some ("orders.person_in_charge_id!=" ++ toString v) := by
      simp [personInChargeIdClause, h1, eq_or_not, toString_string, String.append_empty]
    have hj0 : ({q with reverse := some rev} : GetOrdersQuery).get_where_condition
        = "WHERE " ++ String.intercalate " AND " (whereClauseList {q with reverse := some rev}) := by
      apply get_where_condition_of_ne_nil
      intro hnil
      have hm : ("orders.person_in_charge_id=" ++ toString v) ∈ whereClauseList {q with reverse := some rev} := by
        simp [whereClauseList, hcl0]
      rw [hnil] at hm
      simp at hm
    have hj1 : ({q with reverse := some ("person_in_charge_id" :: rev)} : GetOrdersQuery).get_where_condition
        = "WHERE " ++ String.intercalate " AND " (whereClauseList {q with reverse := some ("person_in_charge_id" :: rev)}) := by
      apply get_where_condition_of_ne_nil
      intro hnil
      have hm : ("orders.person_in_charge_id!=" ++ toString v) ∈ whereClauseList {q with reverse := some ("person_in_charge_id" :: rev)} := by
        simp [whereClauseList, hcl1]
      rw [hnil] at hm
      simp at hm
    refine ⟨hcl0, hcl1, ⟨(idClause {q with reverse := some rev}).toList ++
      (createdByUserIdClause {q with reverse := some rev}).toList ++
      (updatedByUserIdClause {q with reverse := some rev}).toList ++
      (fuzzyClause {q with reverse := some rev}).toList ++
      (warehouseIdsClause {q with reverse := some rev}).toList ++
      (personRelatedIdClause {q with reverse := some rev}).toList,
      (orderTypeClause {q with reverse := some rev}).toList ++
      (orderPaymentStatusClause {q with reverse := some rev}).toList ++
      (orderCategoryIdClause {q with reverse := some rev}).toList ++
      (currencyClause {q with reverse := some rev}).toList ++
      (dateStartClause {q with reverse := some rev}).toList ++
      (dateEndClause {q with reverse := some rev}).toList ++
      (lastUpdatedDateStartClause {q with reverse := some rev}).toList ++
      (lastUpdatedDateEndClause {q with reverse := some rev}).toList, ?_, ?_⟩, hj0, hj1⟩
    · simp only [whereClauseList]
      rw [hcl0]
      simp
    · simp only [whereClauseList]
      rw [hcl1]
      simp [idClause, createdByUserIdClause, updatedByUserIdClause, fuzzyClause, warehouseIdsClause, personRelatedIdClause, orderTypeClause, orderPaymentStatusClause, orderCategoryIdClause, currencyClause, dateStartClause, dateEndClause, lastUpdatedDateStartClause, lastUpdatedDateEndClause,
        eq_or_not, in_or_not, like_or_not]
  · intro h1 h2 h3 h4 h5 h6 h7
    have hcl0 : orderCategoryIdClause {q with reverse := some rev} = some ("orders.order_category_id=" ++ toString v) := by
      simp [orderCategoryIdClause, h1, eq_or_not, h7, toString_string, String.append_empty]
    have hcl1 : orderCategoryIdClause {q with reverse := some ("order_category_id" :: rev)} = some ("orders.order_category_id!=" ++ toString v) := by
      simp [orderCategoryIdClause, h1, eq_or_not, toString_string, String.append_empty]
    have hj0 : ({q with reverse := some rev} : GetOrdersQuery).get_where_condition
        = "WHERE " ++ String.intercalate " AND " (whereClauseList {q with reverse := some rev}) := by
      apply get_where_condition_of_ne_nil
      intro hnil
      have hm : ("orders.order_category_id=" ++ toString v) ∈ whereClauseList {q with reverse := some rev} := by
        simp [whereClauseList, hcl0]
      rw [hnil] at hm
      simp at hm
    have hj1 : ({q with reverse := some ("order_category_id" :: rev)} : GetOrdersQuery).get_where_condition
        = "WHERE " ++ String.intercalate " AND " (whereClauseList {q with reverse := some ("order_category_id" :: rev)}) := by
      apply get_where_condition_of_ne_nil
      intro hnil
      have hm : ("orders.order_category_id!=" ++ toString v) ∈ whereClauseList {q with reverse := some ("order_category_id" :: rev)} := by
        simp [whereClauseList, hcl1]
      rw [hnil] at hm
      simp at hm
    refine ⟨hcl0, hcl1, ⟨(idClause {q with reverse := some rev}).toList ++
      (createdByUserIdClause {q with reverse := some rev}).toList ++
      (updatedByUserIdClause {q with reverse := some rev}).toList ++
      (fuzzyClause {q with reverse := some rev}).toList ++
      (warehouseIdsClause {q with reverse := some rev}).toList ++
      (personRelatedIdClause {q with reverse := some rev}).toList ++
      (personInChargeIdClause {q with reverse := some rev}).toList ++
      (orderTypeClause {q with reverse := some rev}).toList ++
      (orderPaymentStatusClause {q with reverse := some rev}).toList,
      (currencyClause {q with reverse := some rev}).toList ++
      (dateStartClause {q with reverse := some rev}).toList ++
      (dateEndClause {q with reverse := some rev}).toList ++
      (lastUpdatedDateStartClause {q with reverse := some rev}).toList ++
      (lastUpdatedDateEndClause {q with reverse := some rev}).toList, ?_, ?_⟩, hj0, hj1⟩
    · simp only [whereClauseList]
      rw [hcl0]
      simp
    · simp only [whereClauseList]
      rw [hcl1]
      simp [idClause, createdByUserIdClause, updatedByUserIdClause, fuzzyClause, warehouseIdsClause, personRelatedIdClause, personInChargeIdClause, orderTypeClause, orderPaymentStatusClause, currencyClause, dateStartClause, dateEndClause, lastUpdatedDateStartClause, lastUpdatedDateEndClause,
        eq_or_not, in_or_not, like_or_not]

/-- Witness for C2: `id=5` on a request that also has `fuzzy` and
`date_start` present, so the unchanged clause lists `A`/`B` are
non-trivial; affirmative with an empty reverse set, negated after adding
`"id"` to it. -/
theorem C2_witness :
    idClause {({GetOrdersQuery.empty with id := some 5, fuzzy := some "x", date_start := some 1} : GetOrdersQuery) with reverse := some []}
        = some ("orders.id=" ++ toString (5 : Int)) ∧
    idClause {({GetOrdersQuery.empty with id := some 5, fuzzy := some "x", date_start := some 1} : GetOrdersQuery) with reverse := some ("id" :: [])}
        = some ("orders.id!=" ++ toString (5 : Int)) ∧
    (∃ A B, whereClauseList {({GetOrdersQuery.empty with id := some 5, fuzzy := some "x", date_start := some 1} : GetOrdersQuery) with reverse := some []}
              = A ++ ("orders.id=" ++ toString (5 : Int)) :: B ∧
            whereClauseList {({GetOrdersQuery.empty with id := some 5, fuzzy := some "x", date_start := some 1} : GetOrdersQuery) with reverse := some ("id" :: [])}
              = A ++ ("orders.id!=" ++ toString (5 : Int)) :: B) ∧
    ({({GetOrdersQuery.empty with id := some 5, fuzzy := some "x", date_start := some 1} : GetOrdersQuery) with reverse := some []} : GetOrdersQuery).get_where_condition
        = "WHERE " ++ String.intercalate " AND "
            (whereClauseList {({GetOrdersQuery.empty with id := some 5, fuzzy := some "x", date_start := some 1} : GetOrdersQuery) with reverse := some []}) ∧
    ({({GetOrdersQuery.empty with id := some 5, fuzzy := some "x", date_start := some 1} : GetOrdersQuery) with reverse := some ("id" :: [])} : GetOrdersQuery).get_where_condition
        = "WHERE " ++ String.intercalate " AND "
            (whereClauseList {({GetOrdersQuery.empty with id := some 5, fuzzy := some "x", date_start := some 1} : GetOrdersQuery) with reverse := some ("id" :: [])}) :=
  (C2_single_equality_field_polarity {GetOrdersQuery.empty with id := some 5, fuzzy := some "x", date_start := some 1} 5 []).1
    rfl rfl rfl rfl rfl rfl (by decide)

/-- Claim C3: with `fuzzy` present and `"fuzzy"` not in the reverse set
(or no reverse set at all), the fuzzy contribution to the WHERE text is
the five-way `OR` `fuzzyText` with operator `LIKE` over, in fixed order,
`CAST(orders.id AS TEXT)`, `persons_related.name`,
`persons_in_charge.name`, `order_status_list.name`, `warehouses.name`;
adding `"fuzzy"` to the reverse set flips all five comparisons uniformly
to `NOT LIKE` and changes nothing else in that contribution. -/
theorem C3_fuzzy_five_way_or (q : GetOrdersQuery) (s : String)
    (hq : q.fuzzy = some s) :
    (q.reverse = none → fuzzyClause q = some (fuzzyText "LIKE" s)) ∧
    (∀ rev, q.reverse = some rev → "fuzzy" ∉ rev →
        fuzzyClause q = some (fuzzyText "LIKE" s)) ∧
    (∀ rev, q.reverse = some rev → "fuzzy" ∈ rev →
        fuzzyClause q = some (fuzzyText "NOT LIKE" s)) ∧
    (∀ c, fuzzyClause q = some c → c ∈ whereClauseList q) := by
  refine ⟨?_, ?_, ?_, ?_⟩
  · intro h
    simp [fuzzyClause, hq, h, like_or_not]
  · intro rev h hmem
    simp [fuzzyClause, hq, h, like_or_not, hmem]
  · intro rev h hmem
    simp [fuzzyClause, hq, h, like_or_not, hmem]
  · intro c hc
    simp [whereClauseList, hc]

set_option maxRecDepth 4096 in
/-- Witness for C3: `fuzzy="abc"`, affirmative without a reverse set and
negated with reverse set `{fuzzy}`, with the negated text spelled out. -/
theorem C3_witness :
    fuzzyClause {GetOrdersQuery.empty with fuzzy := some "abc"}
        = some (fuzzyText "LIKE" "abc") ∧
    fuzzyClause {GetOrdersQuery.empty with fuzzy := some "abc", reverse := some ["fuzzy"]}
        = some (fuzzyText "NOT LIKE" "abc") ∧
    fuzzyText "NOT LIKE" "abc"
        = "CAST(orders.id AS TEXT) NOT LIKE '%abc%' OR persons_related.name NOT LIKE '%abc%' OR persons_in_charge.name NOT LIKE '%abc%' OR order_status_list.name NOT LIKE '%abc%' OR warehouses.name NOT LIKE '%abc%'" :=
  ⟨(C3_fuzzy_five_way_or _ "abc" rfl).1 rfl,
   (C3_fuzzy_five_way_or _ "abc" rfl).2.2.1 ["fuzzy"] rfl (by decide),
   by decide⟩

/-- Claim C4: with `last_updated_date_start` present the emitted clause
compares the literal compound column name
`orders.last_updated_date_start` with `>=`, and with
`last_updated_date_end` present the clause compares
`orders.last_updated_date_end` with `<=`; neither clause is the one that
would use the base column name `last_updated_date`. -/
theorem C4_last_updated_compound_column_names (q : GetOrdersQuery) (v : Int) :
    (q.last_updated_date_start = some v →
        lastUpdatedDateStartClause q
          = some ("orders.last_updated_date_start>=" ++ toString v) ∧
        ("orders.last_updated_date_start>=" ++ toString v) ∈ whereClauseList q ∧
        "orders.last_updated_date_start>=" ++ toString v
          ≠ "orders.last_updated_date>=" ++ toString v) ∧
    (q.last_updated_date_end = some v →
        lastUpdatedDateEndClause q
          = some ("orders.last_updated_date_end<=" ++ toString v) ∧
        ("orders.last_updated_date_end<=" ++ toString v) ∈ whereClauseList q ∧
        "orders.last_updated_date_end<=" ++ toString v
          ≠ "orders.last_updated_date<=" ++ toString v) := by
  constructor
  · intro h
    have hcl : lastUpdatedDateStartClause q
        = some ("orders.last_updated_date_start>=" ++ toString v) := by
      simp [lastUpdatedDateStartClause, h, toString_string, String.append_empty]
    refine ⟨hcl, ?_, ?_⟩
    · simp [whereClauseList, hcl]
    · intro he
      have hlen := congrArg String.length he
      rw [String.length_append, String.length_append] at hlen
      have h1 : ("orders.last_updated_date_start>=" : String).length = 32 := rfl
      have h2 : ("orders.last_updated_date>=" : String).length = 26 := rfl
      rw [h1, h2] at hlen
      omega
  · intro h
    have hcl : lastUpdatedDateEndClause q
        = some ("orders.last_updated_date_end<=" ++ toString v) := by
      simp [lastUpdatedDateEndClause, h, toString_string, String.append_empty]
    refine ⟨hcl, ?_, ?_⟩
    · simp [whereClauseList, hcl]
    · intro he
      have hlen := congrArg String.length he
      rw [String.length_append, String.length_append] at hlen
      have h1 : ("orders.last_updated_date_end<=" : String).length = 30 := rfl
      have h2 : ("orders.last_updated_date<=" : String).length = 26 := rfl
      rw [h1, h2] at hlen
      omega

/-- Witness for C4 at value 7 on a request with both last-updated bounds
present. -/
theorem C4_witness :
    lastUpdatedDateStartClause {GetOrdersQuery.empty with
        last_updated_date_start := some 7, last_updated_date_end := some 7}
      = some ("orders.last_updated_date_start>=" ++ toString (7 : Int)) ∧
    lastUpdatedDateEndClause {GetOrdersQuery.empty with
        last_updated_date_start := some 7, last_updated_date_end := some 7}
      = some ("orders.last_updated_date_end<=" ++ toString (7 : Int)) :=
  ⟨((C4_last_updated_compound_column_names _ 7).1 rfl).1,
   ((C4_last_updated_compound_column_names _ 7).2 rfl).1⟩

/-- Claim C5: with `date_start=a` and `date_end=b` present,
`get_where_condition` emits the two clauses `orders.date>=a` and
`orders.date<=b` as adjacent AND-joined clauses; the two clauses are
identical for every content of the reverse set (the date range fields are
never negated). -/
theorem C5_date_range_inclusive_never_negated (q : GetOrdersQuery) (a b : Int)
    (h1 : q.date_start = some a) (h2 : q.date_end = some b) :
    dateStartClause q = some ("orders.date>=" ++ toString a) ∧
    dateEndClause q = some ("orders.date<=" ++ toString b) ∧
    (∀ r, dateStartClause {q with reverse := r} = dateStartClause q ∧
          dateEndClause {q with reverse := r} = dateEndClause q) ∧
    List.IsInfix [("orders.date>=" ++ toString a), ("orders.date<=" ++ toString b)]
      (whereClauseList q) ∧
    q.get_where_condition = "WHERE " ++ String.intercalate " AND " (whereClauseList q) := by
  have hc1 : dateStartClause q = some ("orders.date>=" ++ toString a) := by
    simp [dateStartClause, h1, toString_string, String.append_empty]
  have hc2 : dateEndClause q = some ("orders.date<=" ++ toString b) := by
    simp [dateEndClause, h2, toString_string, String.append_empty]
  refine ⟨hc1, hc2, ?_, ?_, ?_⟩
  · intro r
    constructor <;> simp [dateStartClause, dateEndClause]
  · refine ⟨(idClause q).toList ++ (createdByUserIdClause q).toList ++
      (updatedByUserIdClause q).toList ++ (fuzzyClause q).toList ++
      (warehouseIdsClause q).toList ++ (personRelatedIdClause q).toList ++
      (personInChargeIdClause q).toList ++ (orderTypeClause q).toList ++
      (orderPaymentStatusClause q).toList ++ (orderCategoryIdClause q).toList ++
      (currencyClause q).toList,
      (lastUpdatedDateStartClause q).toList ++ (lastUpdatedDateEndClause q).toList, ?_⟩
    simp [whereClauseList, hc1, hc2]
  · apply get_where_condition_of_ne_nil
    intro hnil
    have : ("orders.date>=" ++ toString a) ∈ whereClauseList q := by
      simp [whereClauseList, hc1]
    rw [hnil] at this
    simp at this

/-- Witness for C5: `date_start=100`, `date_end=200` with a reverse set
naming both date fields still yields the plain inclusive range. -/
theorem C5_witness :
    ({GetOrdersQuery.empty with date_start := some 100, date_end := some 200, reverse := some ["date_start", "date_end"]} : GetOrdersQuery).get_where_condition
      = "WHERE orders.date>=100 AND orders.date<=200" :=
  ((C5_date_range_inclusive_never_negated _ 100 200 rfl rfl).2.2.2.2).trans (by decide)

/-- Claim C6: with `warehouse_ids` present and `"warehouse_ids"` not in
the reverse set, the warehouse clause is `orders.warehouse_id` followed by
the ` IN ` operator and the parenthesized comma-joined rendering of the
set; with `"warehouse_ids"` in the reverse set the operator becomes
` NOT IN ` and the rendered list is unchanged. -/
theorem C6_warehouse_ids_membership (q : GetOrdersQuery) (w : List Int)
    (hq : q.warehouse_ids = some w) :
    (q.reverse = none →
        warehouseIdsClause q
          = some ("orders.warehouse_id IN (" ++ set_to_string w "," ++ ")")) ∧
    (∀ rev, q.reverse = some rev → "warehouse_ids" ∉ rev →
        warehouseIdsClause q
          = some ("orders.warehouse_id IN (" ++ set_to_string w "," ++ ")")) ∧
    (∀ rev, q.reverse = some rev → "warehouse_ids" ∈ rev →
        warehouseIdsClause q
          = some ("orders.warehouse_id NOT IN (" ++ set_to_string w "," ++ ")")) ∧
    (∀ c, warehouseIdsClause q = some c → c ∈ whereClauseList q) := by
  refine ⟨?_, ?_, ?_, ?_⟩
  · intro h
    simp [warehouseIdsClause, hq, h, in_or_not, toString_string,
      String.append_empty, String.empty_append]
  · intro rev h hmem
    simp [warehouseIdsClause, hq, h, in_or_not, hmem, toString_string,
      String.append_empty, String.empty_append]
  · intro rev h hmem
    simp [warehouseIdsClause, hq, h, in_or_not, hmem, toString_string,
      String.append_empty, String.empty_append]
  · intro c hc
    simp [whereClauseList, hc]

/-- Witness for C6: ids `{1,2,3}` rendered as `(1,2,3)`, with `IN` for an
empty reverse set and `NOT IN` for reverse set `{warehouse_ids}`. -/
theorem C6_witness :
    warehouseIdsClause {GetOrdersQuery.empty with warehouse_ids := some [1, 2, 3], reverse := some []}
        = some "orders.warehouse_id IN (1,2,3)" ∧
    warehouseIdsClause {GetOrdersQuery.empty with warehouse_ids := some [1, 2, 3], reverse := some ["warehouse_ids"]}
        = some "orders.warehouse_id NOT IN (1,2,3)" :=
  ⟨((C6_warehouse_ids_membership _ [1, 2, 3] rfl).2.1 [] rfl (by decide)).trans (by decide),
   ((C6_warehouse_ids_membership _ [1, 2, 3] rfl).2.2.1 ["warehouse_ids"] rfl (by decide)).trans (by decide)⟩

/-- Claim C7: `get_order_condition` emits one term per sorter token in
caller order, comma-joined; a token whose base column is `warehouse_id`
yields `warehouse_name` plus the direction, `person_related_id` yields
`person_related_name`, `person_in_charge_id` yields
`person_in_charge_name`, `order_category_id` yields `order_status_name`
(all four without the `orders.` qualifier), and every other base column
`C` yields `orders.C` plus the direction; in particular
`"warehouse_id:desc"` resolves to `warehouse_name desc` and `"id"` to
`orders.id` with the default direction. -/
theorem C7_sort_token_resolution (q : GetOrdersQuery) (l : List String)
    (hq : q.sorters = some l) :
    q.get_order_condition
      = (if l.isEmpty then "" else "ORDER BY " ++ String.intercalate ", " (l.map sortTerm)) ∧
    (∀ t, sortTerm t =
       (let col := get_sort_col_str t
        let sort := get_sorter_str t
        if col = "warehouse_id" then "warehouse_name " ++ sort
        else if col = "person_related_id" then "person_related_name " ++ sort
        else if col = "person_in_charge_id" then "person_in_charge_name " ++ sort
        else if col = "order_category_id" then "order_status_name " ++ sort
        else "orders." ++ col ++ " " ++ sort)) ∧
    sortTerm "warehouse_id:desc" = "warehouse_name desc" ∧
    sortTerm "id" = "orders.id ASC" := by
  refine ⟨?_, ?_, by decide, by decide⟩
  · cases l with
    | nil =>
      simp [GetOrdersQuery.get_order_condition, hq]
    | cons a as =>
      simp [GetOrdersQuery.get_order_condition, hq, toString_string, String.append_empty]
  · intro t
    simp only [sortTerm, beq_iff_eq, toString_string]
    split_ifs <;> simp [toString_string, String.append_empty, String.append_assoc]

/-- Witness for C7: the sorter list `["warehouse_id:desc", "id"]`. -/
theorem C7_witness :
    ({GetOrdersQuery.empty with sorters := some ["warehouse_id:desc", "id"]} : GetOrdersQuery).get_order_condition
      = "ORDER BY warehouse_name desc, orders.id ASC" :=
  ((C7_sort_token_resolution _ ["warehouse_id:desc", "id"] rfl).1).trans (by decide)

/-- Claim C10: when `fuzzy` is present together with at least one other
filter field, the five-way `OR` disjunction contributed by fuzzy is a
member of the AND-joined clause list without surrounding parentheses (it
starts with the `C` of `CAST` and ends with a quote), so the disjunction
is not syntactically grouped as a single operand of the AND chain. -/
theorem C10_fuzzy_disjunction_not_parenthesized (q : GetOrdersQuery) (s c : String)
    (hq : q.fuzzy = some s) (hc : fuzzyClause q = some c)
    (hmore : 2 ≤ (whereClauseList q).length) :
    c ∈ whereClauseList q ∧
    c.data.head? = some 'C' ∧
    c.data.getLast? = some '\'' ∧
    q.get_where_condition = "WHERE " ++ String.intercalate " AND " (whereClauseList q) := by
  have hceq : c = fuzzyText (like_or_not q.reverse "fuzzy") s := by
    simp [fuzzyClause, hq] at hc
    exact hc.symm
  refine ⟨?_, ?_, ?_, ?_⟩
  · simp [whereClauseList, hc]
  · rw [hceq]
    simp [fuzzyText, toString_string, String.append_empty, String.empty_append,
      String.append_assoc, String.data_append]
  · rw [hceq]
    simp [fuzzyText, toString_string, String.append_empty, String.empty_append,
      String.append_assoc, String.data_append, List.getLast?_append_cons,
      List.getLast?_cons_cons, getLast?_cons_append_cons]
  · apply get_where_condition_of_ne_nil
    intro hnil
    have : c ∈ whereClauseList q := by simp [whereClauseList, hc]
    rw [hnil] at this
    simp at this

set_option maxRecDepth 8192 in
/-- Witness for C10: `fuzzy="x"` together with `id=1`. -/
theorem C10_witness :
    (fuzzyText "LIKE" "x") ∈ whereClauseList {GetOrdersQuery.empty with id := some 1, fuzzy := some "x"} ∧
    (fuzzyText "LIKE" "x").data.head? = some 'C' ∧
    (fuzzyText "LIKE" "x").data.getLast? = some '\'' ∧
    ({GetOrdersQuery.empty with id := some 1, fuzzy := some "x"} : GetOrdersQuery).get_where_condition
      = "WHERE " ++ String.intercalate " AND "
          (whereClauseList {GetOrdersQuery.empty with id := some 1, fuzzy := some "x"}) :=
  C10_fuzzy_disjunction_not_parenthesized _ "x" (fuzzyText "LIKE" "x")
    rfl (by decide) (by decide)

end Elerp
